import Mathlib

/-!
Verification of the NeuroSync biofeedback trainer control logic
(`src/revisaoresidencia.c`).

Shallow embedding conventions:
* `float` threshold and reading values are modelled by `ℚ`; every value the
  program manipulates is a multiple of `0.5`, so rational arithmetic is exact.
* machine counters are modelled by `ℕ`; where a C unsigned increment can
  genuinely wrap (`uint32_t pontuacao`, `uint8_t sessoes_concluidas`) the
  increment is taken modulo `2 ^ 32` / `2 ^ 8`.
* timestamps (`time_us_32() / 1000000`, `/ 1000`) are modelled as `ℕ`
  seconds / milliseconds within one 32-bit timer epoch, where the C
  unsigned subtraction `now - earlier` agrees with `ℕ` subtraction.
-/

namespace NeuroSync

/-- The four adjustable thresholds (globals `limiar_*` in the source,
defaults 30/70 and 3/7). -/
structure Limiares where
  limiar_atencao_baixo : ℚ
  limiar_atencao_alto : ℚ
  limiar_relaxamento_baixo : ℚ
  limiar_relaxamento_alto : ℚ
  deriving DecidableEq, Repr

/-- Initial values of the threshold globals. -/
def limiares_padrao : Limiares :=
  { limiar_atencao_baixo := 30
    limiar_atencao_alto := 70
    limiar_relaxamento_baixo := 3
    limiar_relaxamento_alto := 7 }

/-- The BUTTON_NEXT branch of `executar_modo_configuracao`
(lines 626-666): increase parameter `p` with the source's sequential
clamps. Parameters outside 0..3 fall through the `switch` unchanged. -/
def aumentar_parametro (p : ℕ) (l : Limiares) : Limiares :=
  match p with
  | 0 =>
    let v := l.limiar_atencao_baixo + 5
    let v := if l.limiar_atencao_alto - 5 < v then l.limiar_atencao_alto - 5 else v
    let v := if 95 < v then 95 else v
    { l with limiar_atencao_baixo := v }
  | 1 =>
    let v := l.limiar_atencao_alto + 5
    let v := if 100 < v then 100 else v
    { l with limiar_atencao_alto := v }
  | 2 =>
    let v := l.limiar_relaxamento_baixo + 1/2
    let v := if l.limiar_relaxamento_alto - 1/2 < v then l.limiar_relaxamento_alto - 1/2 else v
    let v := if 19/2 < v then 19/2 else v
    { l with limiar_relaxamento_baixo := v }
  | 3 =>
    let v := l.limiar_relaxamento_alto + 1/2
    let v := if 10 < v then 10 else v
    { l with limiar_relaxamento_alto := v }
  | _ => l

/-- The BUTTON_BACK branch of `executar_modo_configuracao`
(lines 668-702): decrease parameter `p` with the source's sequential
clamps. -/
def diminuir_parametro (p : ℕ) (l : Limiares) : Limiares :=
  match p with
  | 0 =>
    let v := l.limiar_atencao_baixo - 5
    let v := if v < 5 then 5 else v
    { l with limiar_atencao_baixo := v }
  | 1 =>
    let v := l.limiar_atencao_alto - 5
    let v := if v < l.limiar_atencao_baixo + 5 then l.limiar_atencao_baixo + 5 else v
    { l with limiar_atencao_alto := v }
  | 2 =>
    let v := l.limiar_relaxamento_baixo - 1/2
    let v := if v < 1/2 then 1/2 else v
    { l with limiar_relaxamento_baixo := v }
  | 3 =>
    let v := l.limiar_relaxamento_alto - 1/2
    let v := if v < l.limiar_relaxamento_baixo + 1/2 then l.limiar_relaxamento_baixo + 1/2 else v
    { l with limiar_relaxamento_alto := v }
  | _ => l

/-- One Next/Back press on parameter `p` while the config edit overlay is
active. -/
inductive AjusteOp where
  | aumentar (p : ℕ)
  | diminuir (p : ℕ)
  deriving DecidableEq, Repr

/-- Apply one adjustment operation. -/
def aplicar_ajuste (l : Limiares) (op : AjusteOp) : Limiares :=
  match op with
  | .aumentar p => aumentar_parametro p l
  | .diminuir p => diminuir_parametro p l

/-- Apply a whole sequence of adjustment operations, oldest first. -/
def aplicar_ajustes (l : Limiares) (ops : List AjusteOp) : Limiares :=
  ops.foldl aplicar_ajuste l

/-- The threshold well-formedness invariant: ordering with minimum gaps
(5 for attention, 0.5 for relaxation) and the absolute bounds. -/
def limiares_ok (l : Limiares) : Prop :=
  5 ≤ l.limiar_atencao_baixo ∧
  l.limiar_atencao_baixo + 5 ≤ l.limiar_atencao_alto ∧
  l.limiar_atencao_alto ≤ 100 ∧
  1/2 ≤ l.limiar_relaxamento_baixo ∧
  l.limiar_relaxamento_baixo + 1/2 ≤ l.limiar_relaxamento_alto ∧
  l.limiar_relaxamento_alto ≤ 10

theorem limiares_ok_padrao : limiares_ok limiares_padrao := by
  refine ⟨?_, ?_, ?_, ?_, ?_, ?_⟩ <;> norm_num [limiares_padrao]

theorem limiares_ok_aumentar (p : ℕ) (l : Limiares) (h : limiares_ok l) :
    limiares_ok (aumentar_parametro p l) := by
  obtain ⟨h1, h2, h3, h4, h5, h6⟩ := h
  match p with
  | 0 =>
    simp only [aumentar_parametro, limiares_ok]
    split_ifs <;> refine ⟨?_, ?_, h3, h4, h5, h6⟩ <;> linarith
  | 1 =>
    simp only [aumentar_parametro, limiares_ok]
    split_ifs <;> refine ⟨h1, ?_, ?_, h4, h5, h6⟩ <;> linarith
  | 2 =>
    simp only [aumentar_parametro, limiares_ok]
    split_ifs <;> refine ⟨h1, h2, h3, ?_, ?_, h6⟩ <;> linarith
  | 3 =>
    simp only [aumentar_parametro, limiares_ok]
    split_ifs <;> refine ⟨h1, h2, h3, h4, ?_, ?_⟩ <;> linarith
  | (n + 4) =>
    exact ⟨h1, h2, h3, h4, h5, h6⟩

theorem limiares_ok_diminuir (p : ℕ) (l : Limiares) (h : limiares_ok l) :
    limiares_ok (diminuir_parametro p l) := by
  obtain ⟨h1, h2, h3, h4, h5, h6⟩ := h
  match p with
  | 0 =>
    simp only [diminuir_parametro, limiares_ok]
    split_ifs <;> refine ⟨?_, ?_, h3, h4, h5, h6⟩ <;> linarith
  | 1 =>
    simp only [diminuir_parametro, limiares_ok]
    split_ifs <;> refine ⟨h1, ?_, ?_, h4, h5, h6⟩ <;> linarith
  | 2 =>
    simp only [diminuir_parametro, limiares_ok]
    split_ifs <;> refine ⟨h1, h2, h3, ?_, ?_, h6⟩ <;> linarith
  | 3 =>
    simp only [diminuir_parametro, limiares_ok]
    split_ifs <;> refine ⟨h1, h2, h3, h4, ?_, ?_⟩ <;> linarith
  | (n + 4) =>
    exact ⟨h1, h2, h3, h4, h5, h6⟩

theorem limiares_ok_aplicar (l : Limiares) (op : AjusteOp) (h : limiares_ok l) :
    limiares_ok (aplicar_ajuste l op) := by
  cases op with
  | aumentar p => exact limiares_ok_aumentar p l h
  | diminuir p => exact limiares_ok_diminuir p l h

theorem limiares_ok_aplicar_ajustes (l : Limiares) (ops : List AjusteOp)
    (h : limiares_ok l) : limiares_ok (aplicar_ajustes l ops) := by
  induction ops generalizing l with
  | nil => exact h
  | cons op ops ih => exact ih _ (limiares_ok_aplicar l op h)

/-- C1: after any sequence of increase/decrease presses starting from the
default thresholds, the ordering invariants hold with minimum gaps 5 and
0.5, attention thresholds stay within [5, 100] and relaxation thresholds
within [0.5, 10]; the operations are total functions, so no operation can
fail. Since this holds for every operation sequence, it in particular
holds after each individual operation of any sequence. -/
theorem c1_invariante_limiares (ops : List AjusteOp) :
    let l := aplicar_ajustes limiares_padrao ops
    l.limiar_atencao_baixo < l.limiar_atencao_alto ∧
    l.limiar_atencao_baixo + 5 ≤ l.limiar_atencao_alto ∧
    l.limiar_relaxamento_baixo < l.limiar_relaxamento_alto ∧
    l.limiar_relaxamento_baixo + 1/2 ≤ l.limiar_relaxamento_alto ∧
    5 ≤ l.limiar_atencao_baixo ∧ l.limiar_atencao_baixo ≤ 100 ∧
    5 ≤ l.limiar_atencao_alto ∧ l.limiar_atencao_alto ≤ 100 ∧
    1/2 ≤ l.limiar_relaxamento_baixo ∧ l.limiar_relaxamento_baixo ≤ 10 ∧
    1/2 ≤ l.limiar_relaxamento_alto ∧ l.limiar_relaxamento_alto ≤ 10 := by
  obtain ⟨h1, h2, h3, h4, h5, h6⟩ :=
    limiares_ok_aplicar_ajustes limiares_padrao ops limiares_ok_padrao
  refine ⟨by linarith, h2, by linarith, h5, h1, by linarith, by linarith, h3,
    h4, by linarith, by linarith, h6⟩

/-- `determinar_estado_cognitivo` (lines 394-418): the six-way cognitive
state classifier. Return codes as in the source:
0 = Distraido (Distracted), 1 = Normal, 2 = Alta Concentracao
(Concentrated), 3 = Relaxamento Profundo (DeepRelaxation),
4 = Estado Flow, 5 = Ansiedade (Anxious). -/
def determinar_estado_cognitivo (l : Limiares) (atencao relaxamento : ℚ) : ℕ :=
  if l.limiar_atencao_alto ≤ atencao ∧ l.limiar_relaxamento_alto ≤ relaxamento then 4
  else if l.limiar_atencao_alto ≤ atencao ∧ relaxamento < l.limiar_relaxamento_baixo then 5
  else if l.limiar_atencao_alto ≤ atencao then 2
  else if atencao < l.limiar_atencao_baixo then 0
  else if l.limiar_relaxamento_alto ≤ relaxamento then 3
  else 1

/-- C2: the classifier applies its six rules in strict precedence order,
first match wins (each implication's hypotheses say exactly that the
earlier rules did not fire), and at the default thresholds (30/70, 3/7)
the six sample readings classify as Flow (4), Anxious (5),
Distracted (0), Normal (1), DeepRelaxation (3) and Concentrated (2). -/
theorem c2_classificador (l : Limiares) (a r : ℚ) :
    (l.limiar_atencao_alto ≤ a → l.limiar_relaxamento_alto ≤ r →
      determinar_estado_cognitivo l a r = 4) ∧
    (l.limiar_atencao_alto ≤ a → r < l.limiar_relaxamento_baixo →
      r < l.limiar_relaxamento_alto →
      determinar_estado_cognitivo l a r = 5) ∧
    (l.limiar_atencao_alto ≤ a → l.limiar_relaxamento_baixo ≤ r →
      r < l.limiar_relaxamento_alto →
      determinar_estado_cognitivo l a r = 2) ∧
    (a < l.limiar_atencao_alto → a < l.limiar_atencao_baixo →
      determinar_estado_cognitivo l a r = 0) ∧
    (a < l.limiar_atencao_alto → l.limiar_atencao_baixo ≤ a →
      l.limiar_relaxamento_alto ≤ r →
      determinar_estado_cognitivo l a r = 3) ∧
    (a < l.limiar_atencao_alto → l.limiar_atencao_baixo ≤ a →
      r < l.limiar_relaxamento_alto →
      determinar_estado_cognitivo l a r = 1) ∧
    determinar_estado_cognitivo limiares_padrao 75 8 = 4 ∧
    determinar_estado_cognitivo limiares_padrao 75 2 = 5 ∧
    determinar_estado_cognitivo limiares_padrao 20 5 = 0 ∧
    determinar_estado_cognitivo limiares_padrao 50 5 = 1 ∧
    determinar_estado_cognitivo limiares_padrao 50 8 = 3 ∧
    determinar_estado_cognitivo limiares_padrao 80 5 = 2 := by
  refine ⟨?_, ?_, ?_, ?_, ?_, ?_, by decide, by decide, by decide, by decide,
    by decide, by decide⟩
  · intro ha hr
    unfold determinar_estado_cognitivo
    rw [if_pos ⟨ha, hr⟩]
  · intro ha hr hrh
    unfold determinar_estado_cognitivo
    rw [if_neg (fun h => absurd h.2 (not_le.mpr hrh)), if_pos ⟨ha, hr⟩]
  · intro ha hlo hhi
    unfold determinar_estado_cognitivo
    rw [if_neg (fun h => absurd h.2 (not_le.mpr hhi)),
      if_neg (fun h => absurd h.2 (not_lt.mpr hlo)), if_pos ha]
  · intro haa hab
    unfold determinar_estado_cognitivo
    rw [if_neg (fun h => absurd h.1 (not_le.mpr haa)),
      if_neg (fun h => absurd h.1 (not_le.mpr haa)), if_neg (not_le.mpr haa),
      if_pos hab]
  · intro haa hba hr
    unfold determinar_estado_cognitivo
    rw [if_neg (fun h => absurd h.1 (not_le.mpr haa)),
      if_neg (fun h => absurd h.1 (not_le.mpr haa)), if_neg (not_le.mpr haa),
      if_neg (not_lt.mpr hba), if_pos hr]
  · intro haa hba hr
    unfold determinar_estado_cognitivo
    rw [if_neg (fun h => absurd h.1 (not_le.mpr haa)),
      if_neg (fun h => absurd h.1 (not_le.mpr haa)), if_neg (not_le.mpr haa),
      if_neg (not_lt.mpr hba), if_neg (not_le.mpr hr)]

/-- C2 witness: the Flow rule applied at a concrete satisfying input. -/
theorem c2_classificador_witness :
    determinar_estado_cognitivo limiares_padrao 90 9 = 4 :=
  (c2_classificador limiares_padrao 90 9).1 (by norm_num [limiares_padrao])
    (by norm_num [limiares_padrao])

/-- The `Estatisticas` global struct (lines 103-114). `ℚ` for the float
accumulators, `ℕ` for the counters; `sessoes_concluidas` is a `uint8_t`
in the source, so its increments are taken mod `2 ^ 8`. -/
structure Estatisticas where
  soma_atencao : ℚ
  soma_relaxamento : ℚ
  max_atencao : ℚ
  max_relaxamento : ℚ
  amostras : ℕ
  tempo_inicio : ℕ
  tempo_ultimo_treino : ℕ
  sessoes_concluidas : ℕ
  deriving DecidableEq, Repr

/-- The `DadosTreinamento` global struct (lines 117-127). Status codes as
in the source: 0 = not started, 1 = in progress, 2 = completed,
3 = failed. `pontuacao` is a `uint32_t`, so its increment is taken mod
`2 ^ 32`. -/
structure DadosTreinamento where
  nivel_atual : ℕ
  nivel_maximo : ℕ
  duracao : ℕ
  objetivo : ℕ
  status : ℕ
  inicio : ℕ
  pontuacao : ℕ
  deriving DecidableEq, Repr

/-- Initial value of the `treinamento` global (`= {0}`). -/
def treinamento_inicial : DadosTreinamento :=
  { nivel_atual := 0, nivel_maximo := 0, duracao := 0, objetivo := 0
    status := 0, inicio := 0, pontuacao := 0 }

/-- The objective test of the in-progress branch of
`executar_modo_treinamento` (lines 794-807): objective 0 is attention,
1 is relaxation, 2 is flow (both); any other value leaves
`objetivo_atingido` false. -/
def objetivo_atingido (t : DadosTreinamento) (l : Limiares) (a r : ℚ) : Bool :=
  match t.objetivo with
  | 0 => decide (l.limiar_atencao_alto ≤ a)
  | 1 => decide (l.limiar_relaxamento_alto ≤ r)
  | 2 => decide (l.limiar_atencao_alto ≤ a) && decide (l.limiar_relaxamento_alto ≤ r)
  | _ => false

/-- The scoring phase of the in-progress branch (lines 809-826): on a
successful tick the score increments; every time the new score is a
multiple of 50 and the level is below the maximum, the level increments,
and reaching the maximum level completes the session, recording the
duration and bumping the session counters. -/
def pontuar (a r : ℚ) (l : Limiares) (now : ℕ) (t : DadosTreinamento)
    (st : Estatisticas) : DadosTreinamento × Estatisticas :=
  if objetivo_atingido t l a r then
    let t1 := { t with pontuacao := (t.pontuacao + 1) % 2 ^ 32 }
    if t1.pontuacao % 50 = 0 ∧ t1.nivel_atual < t1.nivel_maximo then
      let t2 := { t1 with nivel_atual := t1.nivel_atual + 1 }
      if t2.nivel_atual = t2.nivel_maximo then
        ({ t2 with status := 2, duracao := now - t2.inicio },
         { st with
            sessoes_concluidas := (st.sessoes_concluidas + 1) % 2 ^ 8
            tempo_ultimo_treino := now - t2.inicio })
      else (t2, st)
    else (t1, st)
  else (t, st)

/-- The timeout phase of the in-progress branch (lines 828-842): once
five minutes have elapsed, the session ends as failed when below the
maximum level, completed otherwise; the duration is recorded and the
session counters bumped. -/
def verificar_tempo (now : ℕ) (t : DadosTreinamento) (st : Estatisticas) :
    DadosTreinamento × Estatisticas :=
  let tempo_decorrido := now - t.inicio
  if 300 ≤ tempo_decorrido then
    ({ t with
        status := if t.nivel_atual < t.nivel_maximo then 3 else 2
        duracao := tempo_decorrido },
     { st with
        sessoes_concluidas := (st.sessoes_concluidas + 1) % 2 ^ 8
        tempo_ultimo_treino := tempo_decorrido })
  else (t, st)

/-- The cancel check at the end of the in-progress branch
(lines 844-854): an accepted SET press resets the session to not
started. -/
def cancelar_treino (setAcc : Bool) (t : DadosTreinamento) : DadosTreinamento :=
  if setAcc then { t with status := 0 } else t

/-- One tick of `executar_modo_treinamento`'s state-machine core
(lines 747-869, display/LED output elided). `a`/`r` are the current
attention and relaxation readings, `now` the current time in seconds,
and `nextAcc`/`setAcc` say whether a NEXT/SET press passed its debounce
check on this tick (an accepted NEXT press updates the shared debounce
timestamp, so a SET press on the same tick cannot also be accepted). -/
def executar_modo_treinamento (a r : ℚ) (l : Limiares) (now : ℕ)
    (nextAcc setAcc : Bool) (t : DadosTreinamento) (st : Estatisticas) :
    DadosTreinamento × Estatisticas :=
  if t.status = 0 then
    if nextAcc then ({ t with objetivo := (t.objetivo + 1) % 3 }, st)
    else if setAcc then
      ({ t with
          status := 1
          inicio := now
          nivel_atual := 1
          nivel_maximo := 10
          pontuacao := 0 }, st)
    else (t, st)
  else if t.status = 1 then
    let p := pontuar a r l now t st
    let v := verificar_tempo now p.1 p.2
    (cancelar_treino setAcc v.1, v.2)
  else if t.status = 2 ∨ t.status = 3 then
    if setAcc then ({ t with status := 0 }, st) else (t, st)
  else (t, st)

/-- Initial value of the `stats` global (`= {0}`, `tempo_inicio` stamped
at boot; the stamp value is irrelevant to the claims, taken as 0). -/
def estatisticas_inicial : Estatisticas :=
  { soma_atencao := 0, soma_relaxamento := 0, max_atencao := 0
    max_relaxamento := 0, amostras := 0, tempo_inicio := 0
    tempo_ultimo_treino := 0, sessoes_concluidas := 0 }

theorem pontuar_nao_atingido (a r : ℚ) (l : Limiares) (now : ℕ)
    (t : DadosTreinamento) (st : Estatisticas)
    (h : objetivo_atingido t l a r = false) :
    pontuar a r l now t st = (t, st) := by
  simp [pontuar, h]

theorem pontuar_sem_nivel (a r : ℚ) (l : Limiares) (now : ℕ)
    (t : DadosTreinamento) (st : Estatisticas)
    (h : objetivo_atingido t l a r = true) (hp : t.pontuacao + 1 < 2 ^ 32)
    (hg : ¬((t.pontuacao + 1) % 50 = 0 ∧ t.nivel_atual < t.nivel_maximo)) :
    pontuar a r l now t st = ({ t with pontuacao := t.pontuacao + 1 }, st) := by
  have hm : (t.pontuacao + 1) % 4294967296 = t.pontuacao + 1 :=
    Nat.mod_eq_of_lt (by omega)
  simp [pontuar, h, hm, hg]

theorem pontuar_sobe_nivel (a r : ℚ) (l : Limiares) (now : ℕ)
    (t : DadosTreinamento) (st : Estatisticas)
    (h : objetivo_atingido t l a r = true) (hp : t.pontuacao + 1 < 2 ^ 32)
    (hg : (t.pontuacao + 1) % 50 = 0 ∧ t.nivel_atual < t.nivel_maximo)
    (hne : t.nivel_atual + 1 ≠ t.nivel_maximo) :
    pontuar a r l now t st =
      ({ t with pontuacao := t.pontuacao + 1, nivel_atual := t.nivel_atual + 1 }, st) := by
  have hm : (t.pontuacao + 1) % 4294967296 = t.pontuacao + 1 :=
    Nat.mod_eq_of_lt (by omega)
  simp [pontuar, h, hm, hg, hne]

theorem pontuar_conclui (a r : ℚ) (l : Limiares) (now : ℕ)
    (t : DadosTreinamento) (st : Estatisticas)
    (h : objetivo_atingido t l a r = true) (hp : t.pontuacao + 1 < 2 ^ 32)
    (hg : (t.pontuacao + 1) % 50 = 0 ∧ t.nivel_atual < t.nivel_maximo)
    (heq : t.nivel_atual + 1 = t.nivel_maximo) :
    pontuar a r l now t st =
      ({ t with
          pontuacao := t.pontuacao + 1
          nivel_atual := t.nivel_atual + 1
          status := 2
          duracao := now - t.inicio },
       { st with
          sessoes_concluidas := (st.sessoes_concluidas + 1) % 2 ^ 8
          tempo_ultimo_treino := now - t.inicio }) := by
  have hm : (t.pontuacao + 1) % 4294967296 = t.pontuacao + 1 :=
    Nat.mod_eq_of_lt (by omega)
  simp [pontuar, h, hm, hg, heq]

theorem verificar_tempo_timeout (now : ℕ) (t : DadosTreinamento)
    (st : Estatisticas) (h : 300 ≤ now - t.inicio) :
    verificar_tempo now t st =
      ({ t with
          status := if t.nivel_atual < t.nivel_maximo then 3 else 2
          duracao := now - t.inicio },
       { st with
          sessoes_concluidas := (st.sessoes_concluidas + 1) % 2 ^ 8
          tempo_ultimo_treino := now - t.inicio }) := by
  simp [verificar_tempo, h]

theorem verificar_tempo_sem_timeout (now : ℕ) (t : DadosTreinamento)
    (st : Estatisticas) (h : now - t.inicio < 300) :
    verificar_tempo now t st = (t, st) := by
  simp [verificar_tempo, Nat.not_le.mpr h]

theorem executar_treinamento_em_andamento (a r : ℚ) (l : Limiares) (now : ℕ)
    (nextAcc setAcc : Bool) (t : DadosTreinamento) (st : Estatisticas)
    (h : t.status = 1) :
    executar_modo_treinamento a r l now nextAcc setAcc t st =
      (cancelar_treino setAcc
        (verificar_tempo now (pontuar a r l now t st).1 (pontuar a r l now t st).2).1,
       (verificar_tempo now (pontuar a r l now t st).1 (pontuar a r l now t st).2).2) := by
  simp [executar_modo_treinamento, h]

/-- The in-progress state produced by pressing SET in training mode at
time 0 (objective 0 = attention): level 1, maximum 10, score 0. -/
def c3_inicio : DadosTreinamento :=
  (executar_modo_treinamento 80 5 limiares_padrao 0 false true
    treinamento_inicial estatisticas_inicial).1

/-- `k` training ticks from `c3_inicio` with a constant reading
(attention 80, relaxation 5) that satisfies the attention objective at
the default thresholds, all within the five-minute limit. -/
def c3_run : ℕ → DadosTreinamento
  | 0 => c3_inicio
  | n + 1 =>
      (executar_modo_treinamento 80 5 limiares_padrao 0 false false
        (c3_run n) estatisticas_inicial).1

/-- C3: while a session is in progress, a tick whose objective condition
holds increments the score by one, increments the level by one exactly
when the new score is a multiple of 50 and the level is below the
maximum, and sets status Completed (2) with the duration recorded when
the increment reaches the maximum level; concretely, meeting the
objective on 50 consecutive ticks from score 0 and level 1 leaves the
level at 1 through the first 49 ticks and raises it to 2 exactly at
score 50. -/
theorem c3_treinamento_pontuacao :
    (∀ (a r : ℚ) (l : Limiares) (now : ℕ) (nextAcc : Bool)
        (t : DadosTreinamento) (st : Estatisticas),
      t.status = 1 → objetivo_atingido t l a r = true →
      t.pontuacao + 1 < 2 ^ 32 →
      (executar_modo_treinamento a r l now nextAcc false t st).1.pontuacao
          = t.pontuacao + 1 ∧
      (executar_modo_treinamento a r l now nextAcc false t st).1.nivel_atual
          = (if (t.pontuacao + 1) % 50 = 0 ∧ t.nivel_atual < t.nivel_maximo
             then t.nivel_atual + 1 else t.nivel_atual) ∧
      ((t.pontuacao + 1) % 50 = 0 → t.nivel_atual < t.nivel_maximo →
        t.nivel_atual + 1 = t.nivel_maximo →
        (executar_modo_treinamento a r l now nextAcc false t st).1.status = 2 ∧
        (executar_modo_treinamento a r l now nextAcc false t st).1.duracao
          = now - t.inicio)) ∧
    (∀ k, k < 50 → (c3_run k).pontuacao = k ∧ (c3_run k).nivel_atual = 1 ∧
      (c3_run k).status = 1) ∧
    (c3_run 50).pontuacao = 50 ∧ (c3_run 50).nivel_atual = 2 ∧
    (c3_run 50).status = 1 := by
  refine ⟨?_, by decide, by decide, by decide, by decide⟩
  intro a r l now nextAcc t st hs ho hp
  rw [executar_treinamento_em_andamento a r l now nextAcc false t st hs]
  simp only [cancelar_treino, if_neg Bool.false_ne_true]
  by_cases hg : (t.pontuacao + 1) % 50 = 0 ∧ t.nivel_atual < t.nivel_maximo
  · by_cases heq : t.nivel_atual + 1 = t.nivel_maximo
    · rw [pontuar_conclui a r l now t st ho hp hg heq]
      by_cases ht : 300 ≤ now - t.inicio
      · rw [verificar_tempo_timeout _ _ _ (by simpa using ht)]
        simp [hg, heq, Nat.lt_irrefl]
      · rw [verificar_tempo_sem_timeout _ _ _ (by simpa using Nat.not_le.mp ht)]
        simp [hg, heq]
    · rw [pontuar_sobe_nivel a r l now t st ho hp hg heq]
      by_cases ht : 300 ≤ now - t.inicio
      · rw [verificar_tempo_timeout _ _ _ (by simpa using ht)]
        exact ⟨rfl, by simp [hg], fun _ _ h => absurd h heq⟩
      · rw [verificar_tempo_sem_timeout _ _ _ (by simpa using Nat.not_le.mp ht)]
        exact ⟨rfl, by simp [hg], fun _ _ h => absurd h heq⟩
  · rw [pontuar_sem_nivel a r l now t st ho hp hg]
    by_cases ht : 300 ≤ now - t.inicio
    · rw [verificar_tempo_timeout _ _ _ (by simpa using ht)]
      exact ⟨rfl, by simp [hg], fun h1 h2 _ => absurd ⟨h1, h2⟩ hg⟩
    · rw [verificar_tempo_sem_timeout _ _ _ (by simpa using Nat.not_le.mp ht)]
      exact ⟨rfl, by simp [hg], fun h1 h2 _ => absurd ⟨h1, h2⟩ hg⟩

/-- C3 witness: one objective-met tick from the freshly started session
increments the score from 0 to 1. -/
theorem c3_treinamento_witness :
    c3_inicio.status = 1 ∧
    objetivo_atingido c3_inicio limiares_padrao 80 5 = true ∧
    c3_inicio.pontuacao + 1 < 2 ^ 32 ∧
    (executar_modo_treinamento 80 5 limiares_padrao 7 false false c3_inicio
      estatisticas_inicial).1.pontuacao = c3_inicio.pontuacao + 1 :=
  ⟨by decide, by decide, by decide,
    (c3_treinamento_pontuacao.1 80 5 limiares_padrao 7 false c3_inicio
      estatisticas_inicial (by decide) (by decide) (by decide)).1⟩

theorem pontuar_inicio (a r : ℚ) (l : Limiares) (now : ℕ)
    (t : DadosTreinamento) (st : Estatisticas) :
    (pontuar a r l now t st).1.inicio = t.inicio := by
  simp only [pontuar]
  split_ifs <;> rfl

/-- C4: while a session is in progress, any tick with at least 300
seconds elapsed since the start terminates the session: status becomes
Failed (3) when the current (post-scoring) level is below the maximum
and Completed (2) otherwise, the duration is set to the elapsed time,
the completed-session counter is bumped, and the last-session duration
is recorded. -/
theorem c4_treinamento_tempo_limite (a r : ℚ) (l : Limiares) (now : ℕ)
    (nextAcc : Bool) (t : DadosTreinamento) (st : Estatisticas)
    (hs : t.status = 1) (ht : 300 ≤ now - t.inicio) :
    (executar_modo_treinamento a r l now nextAcc false t st).1.status
        = (if (pontuar a r l now t st).1.nivel_atual
              < (pontuar a r l now t st).1.nivel_maximo then 3 else 2) ∧
    ((executar_modo_treinamento a r l now nextAcc false t st).1.status = 2 ∨
      (executar_modo_treinamento a r l now nextAcc false t st).1.status = 3) ∧
    (executar_modo_treinamento a r l now nextAcc false t st).1.duracao
        = now - t.inicio ∧
    (executar_modo_treinamento a r l now nextAcc false t st).2.sessoes_concluidas
        = ((pontuar a r l now t st).2.sessoes_concluidas + 1) % 2 ^ 8 ∧
    (executar_modo_treinamento a r l now nextAcc false t st).2.tempo_ultimo_treino
        = now - t.inicio := by
  have hi : (pontuar a r l now t st).1.inicio = t.inicio :=
    pontuar_inicio a r l now t st
  have hc : ∀ x : DadosTreinamento, cancelar_treino false x = x := fun x => rfl
  rw [executar_treinamento_em_andamento a r l now nextAcc false t st hs,
    verificar_tempo_timeout now _ _ (by rwa [hi]), hc]
  refine ⟨rfl, ?_, ?_, rfl, ?_⟩
  · dsimp only
    split_ifs <;> simp
  · dsimp only
    rw [hi]
  · dsimp only
    rw [hi]

/-- C4 witness: a timed-out tick from the freshly started session (level
1 of 10) at time 300 ends with status Failed (3). -/
theorem c4_treinamento_tempo_limite_witness :
    c3_inicio.status = 1 ∧ 300 ≤ 300 - c3_inicio.inicio ∧
    (executar_modo_treinamento 0 0 limiares_padrao 300 false false c3_inicio
        estatisticas_inicial).1.status
      = (if (pontuar 0 0 limiares_padrao 300 c3_inicio estatisticas_inicial).1.nivel_atual
            < (pontuar 0 0 limiares_padrao 300 c3_inicio estatisticas_inicial).1.nivel_maximo
         then 3 else 2) :=
  ⟨by decide, by decide,
    (c4_treinamento_tempo_limite 0 0 limiares_padrao 300 false c3_inicio
      estatisticas_inicial (by decide) (by decide)).1⟩

theorem verificar_tempo_campos (now : ℕ) (x : DadosTreinamento)
    (st : Estatisticas) :
    (verificar_tempo now x st).1.nivel_atual = x.nivel_atual ∧
    (verificar_tempo now x st).1.nivel_maximo = x.nivel_maximo ∧
    (verificar_tempo now x st).1.pontuacao = x.pontuacao := by
  simp only [verificar_tempo]
  split_ifs <;> exact ⟨rfl, rfl, rfl⟩

theorem cancelar_treino_false (x : DadosTreinamento) :
    cancelar_treino false x = x := rfl

theorem cancelar_treino_campos (b : Bool) (x : DadosTreinamento) :
    (cancelar_treino b x).nivel_atual = x.nivel_atual ∧
    (cancelar_treino b x).pontuacao = x.pontuacao ∧
    (cancelar_treino b x).duracao = x.duracao := by
  unfold cancelar_treino
  split_ifs <;> exact ⟨rfl, rfl, rfl⟩

theorem pontuar_pontuacao_mono (a r : ℚ) (l : Limiares) (now : ℕ)
    (t : DadosTreinamento) (st : Estatisticas) (hp : t.pontuacao + 1 < 2 ^ 32) :
    t.pontuacao ≤ (pontuar a r l now t st).1.pontuacao := by
  have hm : (t.pontuacao + 1) % 2 ^ 32 = t.pontuacao + 1 := Nat.mod_eq_of_lt hp
  simp only [pontuar]
  split_ifs <;> dsimp only <;> try rw [hm]
  all_goals omega

theorem pontuar_nivel_mono (a r : ℚ) (l : Limiares) (now : ℕ)
    (t : DadosTreinamento) (st : Estatisticas) :
    t.nivel_atual ≤ (pontuar a r l now t st).1.nivel_atual := by
  simp only [pontuar]
  split_ifs <;> dsimp only <;> omega

theorem pontuar_duracao_cases (a r : ℚ) (l : Limiares) (now : ℕ)
    (t : DadosTreinamento) (st : Estatisticas) :
    ((pontuar a r l now t st).1.duracao = t.duracao ∧
      (pontuar a r l now t st).1.status = t.status) ∨
    (pontuar a r l now t st).1.status = 2 := by
  simp only [pontuar]
  split_ifs <;> dsimp only <;> simp

theorem verificar_tempo_duracao_cases (now : ℕ) (x : DadosTreinamento)
    (st : Estatisticas) :
    ((verificar_tempo now x st).1.duracao = x.duracao ∧
      (verificar_tempo now x st).1.status = x.status) ∨
    (verificar_tempo now x st).1.status = 2 ∨
    (verificar_tempo now x st).1.status = 3 := by
  simp only [verificar_tempo]
  split_ifs <;> dsimp only <;> simp

theorem executar_treinamento_nao_iniciado (a r : ℚ) (l : Limiares) (now : ℕ)
    (nextAcc setAcc : Bool) (t : DadosTreinamento) (st : Estatisticas)
    (hs : t.status = 0) :
    (executar_modo_treinamento a r l now nextAcc setAcc t st).1.duracao
      = t.duracao := by
  simp only [executar_modo_treinamento, hs, if_pos rfl]
  split_ifs <;> rfl

theorem executar_treinamento_terminado (a r : ℚ) (l : Limiares) (now : ℕ)
    (nextAcc setAcc : Bool) (t : DadosTreinamento) (st : Estatisticas)
    (hs : t.status = 2 ∨ t.status = 3) :
    executar_modo_treinamento a r l now nextAcc setAcc t st
      = (if setAcc then { t with status := 0 } else t, st) := by
  have h0 : ¬t.status = 0 := by omega
  have h1 : ¬t.status = 1 := by omega
  simp only [executar_modo_treinamento, if_neg h0, if_neg h1, if_pos hs]
  split_ifs <;> rfl

theorem executar_treinamento_outros (a r : ℚ) (l : Limiares) (now : ℕ)
    (nextAcc setAcc : Bool) (t : DadosTreinamento) (st : Estatisticas)
    (h0 : ¬t.status = 0) (h1 : ¬t.status = 1)
    (h23 : ¬(t.status = 2 ∨ t.status = 3)) :
    executar_modo_treinamento a r l now nextAcc setAcc t st = (t, st) := by
  simp only [executar_modo_treinamento, if_neg h0, if_neg h1, if_neg h23]

/-- C5: within a session, one in-progress tick never decreases the score
(given that the 32-bit score does not overflow, which a real session
bounded by the five-minute timeout can never do) nor the level; with no
SET press, the tick changes the duration field only when it is the tick
that moves the session to Completed (2) or Failed (3); and once the
session is Completed or Failed, no further tick changes the duration. -/
theorem c5_monotonia_e_duracao :
    (∀ (a r : ℚ) (l : Limiares) (now : ℕ) (nextAcc setAcc : Bool)
        (t : DadosTreinamento) (st : Estatisticas),
      t.status = 1 → t.pontuacao + 1 < 2 ^ 32 →
      t.pontuacao ≤
        (executar_modo_treinamento a r l now nextAcc setAcc t st).1.pontuacao) ∧
    (∀ (a r : ℚ) (l : Limiares) (now : ℕ) (nextAcc setAcc : Bool)
        (t : DadosTreinamento) (st : Estatisticas),
      t.status = 1 →
      t.nivel_atual ≤
        (executar_modo_treinamento a r l now nextAcc setAcc t st).1.nivel_atual) ∧
    (∀ (a r : ℚ) (l : Limiares) (now : ℕ) (nextAcc : Bool)
        (t : DadosTreinamento) (st : Estatisticas),
      (executar_modo_treinamento a r l now nextAcc false t st).1.duracao
          ≠ t.duracao →
      t.status = 1 ∧
        ((executar_modo_treinamento a r l now nextAcc false t st).1.status = 2 ∨
         (executar_modo_treinamento a r l now nextAcc false t st).1.status = 3)) ∧
    (∀ (a r : ℚ) (l : Limiares) (now : ℕ) (nextAcc setAcc : Bool)
        (t : DadosTreinamento) (st : Estatisticas),
      t.status = 2 ∨ t.status = 3 →
      (executar_modo_treinamento a r l now nextAcc setAcc t st).1.duracao
          = t.duracao) := by
  refine ⟨?_, ?_, ?_, ?_⟩
  · intro a r l now nextAcc setAcc t st hs hp
    rw [executar_treinamento_em_andamento a r l now nextAcc setAcc t st hs]
    rw [(cancelar_treino_campos setAcc _).2.1, (verificar_tempo_campos now _ _).2.2]
    exact pontuar_pontuacao_mono a r l now t st hp
  · intro a r l now nextAcc setAcc t st hs
    rw [executar_treinamento_em_andamento a r l now nextAcc setAcc t st hs]
    rw [(cancelar_treino_campos setAcc _).1, (verificar_tempo_campos now _ _).1]
    exact pontuar_nivel_mono a r l now t st
  · intro a r l now nextAcc t st h
    by_cases hs0 : t.status = 0
    · exact absurd
        (executar_treinamento_nao_iniciado a r l now nextAcc false t st hs0) h
    by_cases hs1 : t.status = 1
    · refine ⟨hs1, ?_⟩
      rw [executar_treinamento_em_andamento a r l now nextAcc false t st hs1]
        at h ⊢
      rw [cancelar_treino_false] at h ⊢
      rcases verificar_tempo_duracao_cases now (pontuar a r l now t st).1
          (pontuar a r l now t st).2 with ⟨hd, hst⟩ | hv
      · rcases pontuar_duracao_cases a r l now t st with ⟨hpd, hps⟩ | hp2
        · exact absurd (by rw [hd, hpd]) h
        · exact Or.inl (by rw [hst, hp2])
      · exact hv
    by_cases hs23 : t.status = 2 ∨ t.status = 3
    · rw [executar_treinamento_terminado a r l now nextAcc false t st hs23] at h
      simp at h
    · rw [executar_treinamento_outros a r l now nextAcc false t st hs0 hs1 hs23]
        at h
      exact absurd rfl h
  · intro a r l now nextAcc setAcc t st h
    rw [executar_treinamento_terminado a r l now nextAcc setAcc t st h]
    split_ifs <;> rfl

/-- C5 witness: the monotonicity part applied to the freshly started
session on an objective-met tick. -/
theorem c5_monotonia_witness :
    c3_inicio.status = 1 ∧ c3_inicio.pontuacao + 1 < 2 ^ 32 ∧
    c3_inicio.pontuacao ≤
      (executar_modo_treinamento 80 5 limiares_padrao 7 false false c3_inicio
        estatisticas_inicial).1.pontuacao :=
  ⟨by decide, by decide,
    c5_monotonia_e_duracao.1 80 5 limiares_padrao 7 false false c3_inicio
      estatisticas_inicial (by decide) (by decide)⟩

/-- The debounce gate at the head of `button_callback` (lines 1010-1013):
a raw edge at time `now` (ms) against the shared `last_button_time` is
accepted when at least `DEBOUNCE_DELAY_MS = 200` ms have passed, in
which case the shared timestamp is updated; otherwise the state is left
unchanged. -/
def record_edge (now last : ℕ) : Bool × ℕ :=
  if now - last < 200 then (false, last) else (true, now)

/-- Number of logical events produced by a list of raw edges (times in
ms, oldest first) run through the shared debounce timestamp. -/
def contar_eventos (last : ℕ) : List ℕ → ℕ
  | [] => 0
  | now :: rest =>
      let e := record_edge now last
      (if e.1 then 1 else 0) + contar_eventos e.2 rest

/-- C6: a raw edge produces a logical event iff 200 ms have passed since
the last accepted event; acceptance updates the shared timestamp to
`now` and suppression leaves it unchanged; hence two edges on the same
source within 200 ms yield exactly one event, and edges at least 200 ms
apart yield two. -/
theorem c6_debounce :
    (∀ now last : ℕ, (record_edge now last).1 = true ↔ 200 ≤ now - last) ∧
    (∀ now last : ℕ, (record_edge now last).1 = true →
      (record_edge now last).2 = now) ∧
    (∀ now last : ℕ, (record_edge now last).1 = false →
      (record_edge now last).2 = last) ∧
    (∀ last t1 t2 : ℕ, 200 ≤ t1 - last → t2 - t1 < 200 →
      contar_eventos last [t1, t2] = 1) ∧
    (∀ last t1 t2 : ℕ, 200 ≤ t1 - last → 200 ≤ t2 - t1 →
      contar_eventos last [t1, t2] = 2) := by
  refine ⟨?_, ?_, ?_, ?_, ?_⟩
  · intro now last
    unfold record_edge
    split_ifs with h
    · simp; omega
    · simp; omega
  · intro now last
    unfold record_edge
    split_ifs <;> simp
  · intro now last
    unfold record_edge
    split_ifs <;> simp
  · intro last t1 t2 h1 h2
    have hn1 : ¬(t1 - last < 200) := by omega
    simp [contar_eventos, record_edge, hn1, h2]
  · intro last t1 t2 h1 h2
    have hn1 : ¬(t1 - last < 200) := by omega
    have hn2 : ¬(t2 - t1 < 200) := by omega
    simp [contar_eventos, record_edge, hn1, hn2]

/-- C6 witness: edges at 200 and 300 ms from timestamp 0 produce exactly
one event. -/
theorem c6_debounce_witness :
    200 ≤ 200 - 0 ∧ (300 : ℕ) - 200 < 200 ∧ contar_eventos 0 [200, 300] = 1 :=
  ⟨by decide, by decide, c6_debounce.2.2.2.1 0 200 300 (by decide) (by decide)⟩

/-- The statistics-reset block of `executar_modo_historico`
(lines 953-964, SET held with NEXT confirmed): zeroes the sums, maxima,
sample count and completed-session counter and re-stamps `tempo_inicio`
with the current time. The source does not touch
`tempo_ultimo_treino`. -/
def limpar_estatisticas (now : ℕ) (st : Estatisticas) : Estatisticas :=
  { st with
      soma_atencao := 0
      soma_relaxamento := 0
      max_atencao := 0
      max_relaxamento := 0
      amostras := 0
      tempo_inicio := now
      sessoes_concluidas := 0 }

/-- C7 counterexample: the reset operation does not zero
`tempo_ultimo_treino` (last_session_duration); from a state whose last
session lasted 42 s, the field is still 42 after a reset. -/
theorem c7_counterexample_limpar :
    (limpar_estatisticas 0
      { soma_atencao := 1, soma_relaxamento := 1, max_atencao := 1
        max_relaxamento := 1, amostras := 1, tempo_inicio := 0
        tempo_ultimo_treino := 42, sessoes_concluidas := 1 }).tempo_ultimo_treino
      = 42 ∧ (42 : ℕ) ≠ 0 := by
  exact ⟨rfl, by decide⟩

/-- C7 (amended): the reset operation zeroes both sums, both maxima, the
sample count and the completed-session counter, re-stamps
`tempo_inicio` with the current time, and leaves `tempo_ultimo_treino`
(last_session_duration) unchanged; resetting twice in a row yields the
same state as resetting once. -/
theorem c7_limpar_estatisticas (now : ℕ) (st : Estatisticas) :
    (limpar_estatisticas now st).soma_atencao = 0 ∧
    (limpar_estatisticas now st).soma_relaxamento = 0 ∧
    (limpar_estatisticas now st).max_atencao = 0 ∧
    (limpar_estatisticas now st).max_relaxamento = 0 ∧
    (limpar_estatisticas now st).amostras = 0 ∧
    (limpar_estatisticas now st).sessoes_concluidas = 0 ∧
    (limpar_estatisticas now st).tempo_inicio = now ∧
    (limpar_estatisticas now st).tempo_ultimo_treino = st.tempo_ultimo_treino ∧
    limpar_estatisticas now (limpar_estatisticas now st)
      = limpar_estatisticas now st :=
  ⟨rfl, rfl, rfl, rfl, rfl, rfl, rfl, rfl, rfl⟩

/-- The mean computation shared by `atualizar_display_historico`
(lines 524-530) and `executar_modo_historico` (lines 969-975): the
division is only performed when there is at least one sample. -/
def media_atencao (st : Estatisticas) : ℚ :=
  if 0 < st.amostras then st.soma_atencao / (st.amostras : ℚ) else 0

/-- Relaxation mean, same guard as `media_atencao`. -/
def media_relaxamento (st : Estatisticas) : ℚ :=
  if 0 < st.amostras then st.soma_relaxamento / (st.amostras : ℚ) else 0

/-- C8: each mean equals sum divided by sample count when the count is
positive and 0 when the count is 0; the division is guarded by the
positivity test, so it is never executed with a zero count. -/
theorem c8_medias (st : Estatisticas) :
    (0 < st.amostras →
      media_atencao st = st.soma_atencao / (st.amostras : ℚ) ∧
      media_relaxamento st = st.soma_relaxamento / (st.amostras : ℚ)) ∧
    (st.amostras = 0 →
      media_atencao st = 0 ∧ media_relaxamento st = 0) := by
  constructor
  · intro h
    exact ⟨by rw [media_atencao, if_pos h], by rw [media_relaxamento, if_pos h]⟩
  · intro h
    have h0 : ¬0 < st.amostras := by omega
    exact ⟨by rw [media_atencao, if_neg h0], by rw [media_relaxamento, if_neg h0]⟩

/-- C8 witness: the zero-sample branch at the initial statistics. -/
theorem c8_medias_witness :
    estatisticas_inicial.amostras = 0 ∧
    media_atencao estatisticas_inicial = 0 ∧
    media_relaxamento estatisticas_inicial = 0 :=
  ⟨rfl, (c8_medias estatisticas_inicial).2 rfl⟩

/-- The menu globals `menu_index` (0 = Monitoring, 1 = ConfigView,
2 = Training, 3 = History), `in_set_mode` and `current_param`. -/
structure MenuEstado where
  menu_index : ℕ
  in_set_mode : Bool
  current_param : ℕ
  deriving DecidableEq, Repr

/-- Boot state: Monitoring, no edit overlay. -/
def menu_inicial : MenuEstado :=
  { menu_index := 0, in_set_mode := false, current_param := 0 }

/-- Logical button identities. -/
inductive Botao where
  | next
  | back
  | set
  deriving DecidableEq, Repr

/-- The per-event body of `button_callback` (lines 1015-1045), after the
debounce gate: SET toggles/advances the edit overlay except in Training
mode; NEXT/BACK cycle the menu only when no overlay is active. -/
def button_action (b : Botao) (s : MenuEstado) : MenuEstado :=
  match b with
  | .set =>
      if s.menu_index ≠ 2 then
        if s.in_set_mode = false then
          { s with in_set_mode := true, current_param := 0 }
        else
          let p := s.current_param + 1
          if 3 < p then { s with in_set_mode := false, current_param := 0 }
          else { s with current_param := p }
      else s
  | .next =>
      if s.in_set_mode = false then
        { s with menu_index := (s.menu_index + 1) % 4 }
      else s
  | .back =>
      if s.in_set_mode = false then
        { s with menu_index := (s.menu_index + 3) % 4 }
      else s

/-- The whole `button_callback` (lines 1010-1046): debounce gate over
the shared timestamp, then the event body. -/
def button_callback (now : ℕ) (b : Botao) (last : ℕ) (s : MenuEstado) :
    ℕ × MenuEstado :=
  if now - last < 200 then (last, s) else (now, button_action b s)

/-- Fold a list of logical events (oldest first) through
`button_action`. -/
def aplicar_botoes (s : MenuEstado) (bs : List Botao) : MenuEstado :=
  bs.foldl (fun s b => button_action b s) s

/-- C9: with no edit overlay, a Next event sets
`menu_index := (menu_index + 1) % 4` and a Back event sets
`menu_index := (menu_index + 3) % 4`; from the boot state (Monitoring),
four Next events come back to Monitoring (0) and one Back event reaches
History (3). -/
theorem c9_navegacao_menu :
    (∀ s : MenuEstado, s.in_set_mode = false →
      (button_action .next s).menu_index = (s.menu_index + 1) % 4 ∧
      (button_action .back s).menu_index = (s.menu_index + 3) % 4) ∧
    aplicar_botoes menu_inicial [.next, .next, .next, .next] = menu_inicial ∧
    (button_action .back menu_inicial).menu_index = 3 := by
  refine ⟨?_, by decide, by decide⟩
  intro s h
  constructor
  · show (if s.in_set_mode = false then
      { s with menu_index := (s.menu_index + 1) % 4 } else s).menu_index = _
    rw [if_pos h]
  · show (if s.in_set_mode = false then
      { s with menu_index := (s.menu_index + 3) % 4 } else s).menu_index = _
    rw [if_pos h]

/-- C9 witness: one Next from the boot state lands in ConfigView (1). -/
theorem c9_navegacao_menu_witness :
    menu_inicial.in_set_mode = false ∧
    (button_action .next menu_inicial).menu_index = (menu_inicial.menu_index + 1) % 4 :=
  ⟨rfl, (c9_navegacao_menu.1 menu_inicial rfl).1⟩

theorem cancelar_treino_true (x : DadosTreinamento) :
    cancelar_treino true x = { x with status := 0 } := rfl

theorem executar_treinamento_inicio (a r : ℚ) (l : Limiares) (now : ℕ)
    (nextAcc setAcc : Bool) (t : DadosTreinamento) (st : Estatisticas)
    (hs : t.status = 0) :
    executar_modo_treinamento a r l now nextAcc setAcc t st
      = if nextAcc then ({ t with objetivo := (t.objetivo + 1) % 3 }, st)
        else if setAcc then
          ({ t with
              status := 1
              inicio := now
              nivel_atual := 1
              nivel_maximo := 10
              pontuacao := 0 }, st)
        else (t, st) := by
  rw [executar_modo_treinamento, if_pos hs]

theorem pontuar_invariante (a r : ℚ) (l : Limiares) (now : ℕ)
    (t : DadosTreinamento) (st : Estatisticas)
    (hmax : t.nivel_maximo = 10)
    (hge : 1 ≤ t.nivel_atual) (hlt : t.nivel_atual < t.nivel_maximo) :
    (pontuar a r l now t st).1.nivel_maximo = 10 ∧
    1 ≤ (pontuar a r l now t st).1.nivel_atual ∧
    ((pontuar a r l now t st).1.status = 1 →
      (pontuar a r l now t st).1.nivel_atual
        < (pontuar a r l now t st).1.nivel_maximo) := by
  simp only [pontuar]
  split_ifs with h hg heq <;> dsimp only
  · exact ⟨hmax, by omega, fun hc => absurd hc (by decide)⟩
  · exact ⟨hmax, by omega, fun _ => by omega⟩
  · exact ⟨hmax, hge, fun _ => hlt⟩
  · exact ⟨hmax, hge, fun _ => hlt⟩

theorem verificar_tempo_em_andamento_cases (now : ℕ) (x : DadosTreinamento)
    (st : Estatisticas) :
    verificar_tempo now x st = (x, st) ∨
    ((verificar_tempo now x st).1.status = 2 ∨
      (verificar_tempo now x st).1.status = 3) := by
  simp only [verificar_tempo]
  split_ifs <;> simp

/-- The states of the `treinamento` global reachable from its boot value
by any sequence of training-mode ticks (arbitrary readings, thresholds,
times and accepted button presses). -/
inductive ReachTreinamento : DadosTreinamento → Prop
  | init : ReachTreinamento treinamento_inicial
  | step (a r : ℚ) (l : Limiares) (now : ℕ) (nextAcc setAcc : Bool)
      (st : Estatisticas) {t : DadosTreinamento} (h : ReachTreinamento t) :
      ReachTreinamento (executar_modo_treinamento a r l now nextAcc setAcc t st).1

/-- The per-level LED count of the in-progress training renderer
(line 908): `NUM_PIXELS / nivel_maximo` with `NUM_PIXELS = 25`. -/
def leds_por_nivel (t : DadosTreinamento) : ℕ := 25 / t.nivel_maximo

theorem treinamento_invariante {t : DadosTreinamento}
    (h : ReachTreinamento t) :
    t.status = 1 →
      t.nivel_maximo = 10 ∧ 1 ≤ t.nivel_atual ∧
      t.nivel_atual < t.nivel_maximo := by
  induction h with
  | init => intro hs; exact absurd hs (by decide)
  | step a r l now nextAcc setAcc st h ih =>
    rename_i t
    intro hs
    by_cases h0 : t.status = 0
    · rw [executar_treinamento_inicio a r l now nextAcc setAcc t st h0] at hs ⊢
      split_ifs at hs ⊢ with hn hset
      · dsimp only at hs
        omega
      · dsimp only
        exact ⟨rfl, by omega, by omega⟩
      · dsimp only at hs
        omega
    by_cases h1 : t.status = 1
    · obtain ⟨hmax, hge, hlt⟩ := ih h1
      rw [executar_treinamento_em_andamento a r l now nextAcc setAcc t st h1]
        at hs ⊢
      dsimp only at hs ⊢
      cases setAcc with
      | true =>
        rw [cancelar_treino_true] at hs
        dsimp only at hs
        omega
      | false =>
        rw [cancelar_treino_false] at hs ⊢
        obtain ⟨hpmax, hpge, hplt⟩ :=
          pontuar_invariante a r l now t st hmax hge hlt
        rcases verificar_tempo_em_andamento_cases now (pontuar a r l now t st).1
            (pontuar a r l now t st).2 with hv | hv
        · rw [hv] at hs ⊢
          dsimp only at hs ⊢
          exact ⟨hpmax, hpge, hplt hs⟩
        · rcases hv with hv | hv <;> omega
    by_cases h23 : t.status = 2 ∨ t.status = 3
    · rw [executar_treinamento_terminado a r l now nextAcc setAcc t st h23]
        at hs ⊢
      split_ifs at hs ⊢ <;> dsimp only at hs <;> omega
    · rw [executar_treinamento_outros a r l now nextAcc setAcc t st h0 h1 h23]
        at hs ⊢
      exact absurd hs h1

/-- C10: in every reachable state with status InProgress (1), the level
maximum is 10 and the current level is at least 1 and strictly below
it, hence the renderer's `NUM_PIXELS / nivel_maximo` is the well-defined
value 2 (no division by zero); and a timeout tick on which the scoring
phase leaves the session still InProgress necessarily selects the
Failed (3) branch, never the Completed one. -/
theorem c10_invariante_reachable :
    (∀ t : DadosTreinamento, ReachTreinamento t → t.status = 1 →
      t.nivel_maximo = 10 ∧ 1 ≤ t.nivel_atual ∧
      t.nivel_atual < t.nivel_maximo ∧ t.nivel_maximo ≠ 0 ∧
      leds_por_nivel t = 2) ∧
    (∀ (a r : ℚ) (l : Limiares) (now : ℕ) (nextAcc : Bool)
        (t : DadosTreinamento) (st : Estatisticas),
      ReachTreinamento t → t.status = 1 →
      (pontuar a r l now t st).1.status = 1 → 300 ≤ now - t.inicio →
      (executar_modo_treinamento a r l now nextAcc false t st).1.status = 3) := by
  constructor
  · intro t h hs
    obtain ⟨hmax, hge, hlt⟩ := treinamento_invariante h hs
    refine ⟨hmax, hge, hlt, by omega, ?_⟩
    rw [leds_por_nivel, hmax]
  · intro a r l now nextAcc t st h hs hps ht
    obtain ⟨hmax, hge, hlt⟩ := treinamento_invariante h hs
    obtain ⟨hpmax, hpge, hplt⟩ := pontuar_invariante a r l now t st hmax hge hlt
    have hi : (pontuar a r l now t st).1.inicio = t.inicio :=
      pontuar_inicio a r l now t st
    rw [executar_treinamento_em_andamento a r l now nextAcc false t st hs,
      cancelar_treino_false,
      verificar_tempo_timeout now _ _ (by rwa [hi])]
    dsimp only
    rw [if_pos (hplt hps)]

/-- C10 witness: the freshly started session is reachable and satisfies
the in-progress invariant. -/
theorem c10_invariante_witness :
    c3_inicio.status = 1 ∧
    (c3_inicio.nivel_maximo = 10 ∧ 1 ≤ c3_inicio.nivel_atual ∧
      c3_inicio.nivel_atual < c3_inicio.nivel_maximo ∧
      c3_inicio.nivel_maximo ≠ 0 ∧ leds_por_nivel c3_inicio = 2) :=
  ⟨by decide,
    c10_invariante_reachable.1 c3_inicio
      (ReachTreinamento.step 80 5 limiares_padrao 0 false true
        estatisticas_inicial ReachTreinamento.init)
      (by decide)⟩

end NeuroSync
